import Mathlib

/-!
Shallow embedding of `src/arduino_trafficlight_homework/src/main.cpp`,
a four-output traffic-light controller with three operator modes
(emergency, shutdown, blink), two debounced edge-interrupt triggers,
one debounced polled trigger, and a 6000ms normal cycle resolved by
`updateTrafficLights`.

Arduino `unsigned long` values (results of `millis()` / `micros()`) are
modelled as `Nat` with subtraction performed modulo `2 ^ 32`; pin levels
and LED outputs are `Bool` (`HIGH = true`, `LOW = false`).
-/

namespace TrafficLight

/-- Modulus of the Arduino `unsigned long` type (32-bit). -/
def ulongMod : Nat := 2 ^ 32

/-- Unsigned 32-bit subtraction `a - b` as C computes it on `unsigned long`:
the mathematical difference reduced modulo `2 ^ 32` (wrapping on underflow). -/
def usub (a b : Nat) : Nat := (a + (ulongMod - b % ulongMod)) % ulongMod

/-- Arduino digital level HIGH. -/
def HIGH : Bool := true

/-- Arduino digital level LOW. -/
def LOW : Bool := false

/-- Source constant `const unsigned long debounceDelayMicro = 200000;` (200ms in µs). -/
def debounceDelayMicro : Nat := 200000

/-- Source constant `const unsigned long blinkingDebounceDelay = 50;` (50ms). -/
def blinkingDebounceDelay : Nat := 50

/-- Source constant `const unsigned long cycleDuration = 6000;` (6s cycle). -/
def cycleDuration : Nat := 6000

/-- The program's global mutable state: the three mode flags, the three
debounce timestamps, the last observed poll level, the cycle reference
time, and the four LED output pins. -/
structure SysState where
  emergencyMode : Bool
  systemOffMode : Bool
  blinkingMode : Bool
  lastEmergencyInterruptTime : Nat
  lastResetInterruptTime : Nat
  lastBlinkingDebounceTime : Nat
  lastBlinkingButtonState : Bool
  cycleStart : Nat
  ledRed : Bool
  ledYellow : Bool
  ledGreen : Bool
  ledBlink : Bool
deriving Repr, DecidableEq

/-- The Output Vector: the four LED pins of a state, as (red, yellow, green, blink). -/
def leds (s : SysState) : Bool × Bool × Bool × Bool :=
  (s.ledRed, s.ledYellow, s.ledGreen, s.ledBlink)

/-- Model of `emergencyISR()`: with `current = micros()`, if
`current - lastEmergencyInterruptTime >= debounceDelayMicro` (unsigned
arithmetic), toggle `emergencyMode` and record `current`; otherwise do nothing. -/
def emergencyISR (current : Nat) (s : SysState) : SysState :=
  if usub current s.lastEmergencyInterruptTime ≥ debounceDelayMicro then
    { s with emergencyMode := !s.emergencyMode, lastEmergencyInterruptTime := current }
  else s

/-- Model of `resetISR()`: with `current = micros()`, if
`current - lastResetInterruptTime >= debounceDelayMicro` (unsigned
arithmetic), toggle `systemOffMode` and record `current`; otherwise do nothing. -/
def resetISR (current : Nat) (s : SysState) : SysState :=
  if usub current s.lastResetInterruptTime ≥ debounceDelayMicro then
    { s with systemOffMode := !s.systemOffMode, lastResetInterruptTime := current }
  else s

/-- Model of `pollBlinkingButton()`: with `currentState = digitalRead(BUTTON_BLINKING)`
and `currentTime = millis()`, toggle `blinkingMode` and record `currentTime`
when a HIGH→LOW transition is seen and
`currentTime - lastBlinkingDebounceTime > blinkingDebounceDelay` (unsigned
arithmetic); in every case store `currentState` into `lastBlinkingButtonState`. -/
def pollBlinkingButton (currentState : Bool) (currentTime : Nat) (s : SysState) : SysState :=
  let s' :=
    if s.lastBlinkingButtonState = HIGH ∧ currentState = LOW ∧
        usub currentTime s.lastBlinkingDebounceTime > blinkingDebounceDelay then
      { s with blinkingMode := !s.blinkingMode, lastBlinkingDebounceTime := currentTime }
    else s
  { s' with lastBlinkingButtonState := currentState }

/-- The quantity `elapsed = (now - cycleStart) % cycleDuration` with unsigned subtraction. -/
def elapsedOf (now cycleStart : Nat) : Nat := usub now cycleStart % cycleDuration

/-- The shared blink level of blink mode: `((millis() / 500) % 2) == 0`. -/
def blinkSharedState (now : Nat) : Bool := (now / 500) % 2 == 0

/-- Model of `updateTrafficLights()`: the Light Output Resolver, with `now` standing
for the `millis()` reads. Priority: systemOff > emergency > blinking > the
six-window normal cycle computed from `elapsedOf now cycleStart`. -/
def updateTrafficLights (now : Nat) (s : SysState) : SysState :=
  if s.systemOffMode then
    { s with ledRed := false, ledYellow := false, ledGreen := false, ledBlink := false }
  else if s.emergencyMode then
    { s with ledRed := true, ledYellow := false, ledGreen := false, ledBlink := false }
  else if s.blinkingMode then
    let b := blinkSharedState now
    { s with ledRed := b, ledYellow := b, ledGreen := b, ledBlink := b }
  else
    let elapsed := elapsedOf now s.cycleStart
    if elapsed < 2000 then
      { s with ledRed := true, ledYellow := false, ledGreen := false, ledBlink := false }
    else if elapsed < 2500 then
      { s with ledRed := false, ledYellow := true, ledGreen := false, ledBlink := false }
    else if elapsed < 4500 then
      { s with ledRed := false, ledYellow := false, ledGreen := true, ledBlink := false }
    else if elapsed < 5500 then
      let tick := (elapsed - 4500) / 100
      { s with ledRed := false, ledYellow := false, ledGreen := false,
               ledBlink := (tick == 0 || tick == 3 || tick == 6) }
    else
      { s with ledRed := false, ledYellow := true, ledGreen := false, ledBlink := false }

/-- Model of `setup()`: all LEDs driven LOW, all mode flags false, debounce
timestamps 0, last observed poll level HIGH (pull-up resting level), and
the cycle reference captured as the given boot-time `millis()` value. -/
def initState (bootMillis : Nat) : SysState :=
  { emergencyMode := false
    systemOffMode := false
    blinkingMode := false
    lastEmergencyInterruptTime := 0
    lastResetInterruptTime := 0
    lastBlinkingDebounceTime := 0
    lastBlinkingButtonState := HIGH
    cycleStart := bootMillis
    ledRed := false
    ledYellow := false
    ledGreen := false
    ledBlink := false }

/-- Whether one invocation of `pollBlinkingButton` accepts a toggle: the
condition of its `if`, as a Bool (a HIGH→LOW transition past the debounce
window). -/
def pollAccepts (currentState : Bool) (currentTime : Nat) (s : SysState) : Bool :=
  s.lastBlinkingButtonState && !currentState &&
    decide (usub currentTime s.lastBlinkingDebounceTime > blinkingDebounceDelay)

/-- Run a sequence of `pollBlinkingButton` invocations, given as
(observed level, `millis()` value) pairs, counting accepted toggles. -/
def pollToggleCount : List (Bool × Nat) → SysState → Nat
  | [], _ => 0
  | (lvl, t) :: rest, s =>
    (if pollAccepts lvl t s then 1 else 0) + pollToggleCount rest (pollBlinkingButton lvl t s)

/-- The Output Vector the §4.3 table prescribes for the normal cycle at a
given `elapsed`, written from the spec's six windows (lower bound
inclusive, upper bound exclusive; triple-flash at offsets 0–100, 300–400,
600–700 within [4500,5500)). -/
def specNormalRow (elapsed : Nat) : Bool × Bool × Bool × Bool :=
  (decide (elapsed < 2000),
   decide ((2000 ≤ elapsed ∧ elapsed < 2500) ∨ (5500 ≤ elapsed ∧ elapsed < 6000)),
   decide (2500 ≤ elapsed ∧ elapsed < 4500),
   decide ((4500 ≤ elapsed ∧ elapsed < 4600) ∨ (4800 ≤ elapsed ∧ elapsed < 4900) ∨
           (5100 ≤ elapsed ∧ elapsed < 5200)))

lemma elapsedOf_lt (now cs : Nat) : elapsedOf now cs < cycleDuration :=
  Nat.mod_lt _ (by decide)

lemma normal_leds (now : Nat) (s : SysState)
    (hs : s.systemOffMode = false) (he : s.emergencyMode = false)
    (hb : s.blinkingMode = false) :
    leds (updateTrafficLights now s) = specNormalRow (elapsedOf now s.cycleStart) := by
  have hlt : elapsedOf now s.cycleStart < 6000 := elapsedOf_lt now s.cycleStart
  unfold updateTrafficLights
  rw [hs, he, hb]
  simp only [Bool.false_eq_true, if_false]
  set e := elapsedOf now s.cycleStart with hedef
  split_ifs with h1 h2 h3 h4 <;>
    simp only [leds, specNormalRow, Prod.mk.injEq] <;>
    refine ⟨?_, ?_, ?_, ?_⟩ <;>
    first
      | (simp; omega)
      | (rw [Bool.eq_iff_iff];
         simp only [Bool.or_eq_true, beq_iff_eq, decide_eq_true_eq];
         omega)

lemma usub_zero {a : Nat} (h : a < ulongMod) : usub a 0 = a := by
  simp only [usub, Nat.zero_mod, Nat.sub_zero, Nat.add_mod_right]
  exact Nat.mod_eq_of_lt h

/-- C1: the resolver selects exactly one branch of the priority chain
shutdown > emergency > blink > normal and turns every output not set by
that branch off: whatever the emergency and blink flags are (including all
three flags true), shutdown yields the all-off vector, and with shutdown
false, emergency yields red-only. -/
theorem claim_C1_priority_chain (now : Nat) (s : SysState) :
    leds (updateTrafficLights now { s with systemOffMode := true }) =
      (false, false, false, false) ∧
    leds (updateTrafficLights now { s with systemOffMode := false, emergencyMode := true }) =
      (true, false, false, false) := by
  constructor <;> simp [updateTrafficLights, leds]

/-- C2: with all three mode flags false, the Output Vector equals the §4.3
six-window table row at `elapsed = (now - cycleReference) mod 6000`, for
every `now` and cycle reference — in particular at the sampled elapsed
values 0, 1999, 2000, 2499, 2500, 4499, 4500, 5499, 5500, 5999 — with
every lower bound inclusive and upper bound exclusive: red on in [0,2000),
yellow on in [2000,2500) and [5500,6000), green on in [2500,4500), the
blink-output pattern in [4500,5500), all other outputs off. -/
theorem claim_C2_normal_cycle_table (now : Nat) (s : SysState) :
    leds (updateTrafficLights now
        { s with systemOffMode := false, emergencyMode := false, blinkingMode := false }) =
      specNormalRow (elapsedOf now s.cycleStart) :=
  normal_leds now _ rfl rfl rfl

/-- C8: `elapsed = (now - cycleReference) % 6000` computed with unsigned
32-bit wrapping subtraction always lies in `[0, 6000)`, for every `now`
and every cycle reference time. -/
theorem claim_C8_elapsed_in_range (now cycleStart : Nat) :
    elapsedOf now cycleStart < cycleDuration :=
  elapsedOf_lt now cycleStart

/-- C9: a single call of the resolver `updateTrafficLights` writes only
the four output pins: the three mode flags, the three debounce
timestamps, the last observed poll level and the cycle reference time are
unchanged. -/
theorem claim_C9_resolver_frame (now : Nat) (s : SysState) :
    (updateTrafficLights now s).emergencyMode = s.emergencyMode ∧
    (updateTrafficLights now s).systemOffMode = s.systemOffMode ∧
    (updateTrafficLights now s).blinkingMode = s.blinkingMode ∧
    (updateTrafficLights now s).lastEmergencyInterruptTime = s.lastEmergencyInterruptTime ∧
    (updateTrafficLights now s).lastResetInterruptTime = s.lastResetInterruptTime ∧
    (updateTrafficLights now s).lastBlinkingDebounceTime = s.lastBlinkingDebounceTime ∧
    (updateTrafficLights now s).lastBlinkingButtonState = s.lastBlinkingButtonState ∧
    (updateTrafficLights now s).cycleStart = s.cycleStart := by
  unfold updateTrafficLights
  dsimp only
  split_ifs <;> exact ⟨rfl, rfl, rfl, rfl, rfl, rfl, rfl, rfl⟩

/-- C3: with all three mode flags false and `elapsed` in [4500,5500), the
blink-output is on exactly when `elapsed` lies in [4500,4600), [4800,4900)
or [5100,5200), and red, yellow and green are off throughout the window. -/
theorem claim_C3_triple_flash (now : Nat) (s : SysState)
    (hs : s.systemOffMode = false) (he : s.emergencyMode = false)
    (hb : s.blinkingMode = false)
    (hlo : 4500 ≤ elapsedOf now s.cycleStart) (hhi : elapsedOf now s.cycleStart < 5500) :
    ((updateTrafficLights now s).ledBlink = true ↔
      ((4500 ≤ elapsedOf now s.cycleStart ∧ elapsedOf now s.cycleStart < 4600) ∨
       (4800 ≤ elapsedOf now s.cycleStart ∧ elapsedOf now s.cycleStart < 4900) ∨
       (5100 ≤ elapsedOf now s.cycleStart ∧ elapsedOf now s.cycleStart < 5200))) ∧
    (updateTrafficLights now s).ledRed = false ∧
    (updateTrafficLights now s).ledYellow = false ∧
    (updateTrafficLights now s).ledGreen = false := by
  have h := normal_leds now s hs he hb
  have hr := congrArg (fun p => p.1) h
  have hy := congrArg (fun p => p.2.1) h
  have hg := congrArg (fun p => p.2.2.1) h
  have hbl := congrArg (fun p => p.2.2.2) h
  simp only [leds, specNormalRow] at hr hy hg hbl
  refine ⟨?_, ?_, ?_, ?_⟩
  · rw [hbl]; simp
  · rw [hr]; simp; omega
  · rw [hy]; simp; omega
  · rw [hg]; simp; omega

/-- C3 witness: at `now = 4550` from cycle reference 0 (so `elapsed = 4550`,
inside the first flash sub-range), the blink-output is on. -/
theorem claim_C3_triple_flash_witness :
    (updateTrafficLights 4550 (initState 0)).ledBlink = true :=
  (claim_C3_triple_flash 4550 (initState 0) rfl rfl rfl (by decide) (by decide)).1.mpr
    (by decide)

/-- C4: with shutdown and emergency false and blink true, all four outputs
carry one shared state equal to the parity test `(now / 500) % 2 == 0`;
two times yield the same shared state exactly when `floor(now / 500)` has
the same parity, and the state flips after 500ms of wall-clock time. -/
theorem claim_C4_blink_mode (now n1 n2 : Nat) (s : SysState) :
    (leds (updateTrafficLights now
        { s with systemOffMode := false, emergencyMode := false, blinkingMode := true }) =
      (blinkSharedState now, blinkSharedState now, blinkSharedState now,
        blinkSharedState now)) ∧
    (blinkSharedState now = ((now / 500) % 2 == 0)) ∧
    (blinkSharedState n1 = blinkSharedState n2 ↔ (n1 / 500) % 2 = (n2 / 500) % 2) ∧
    (blinkSharedState (now + 500) = !blinkSharedState now) := by
  refine ⟨by simp [updateTrafficLights, leds], rfl, ?_, ?_⟩
  · unfold blinkSharedState
    rw [Bool.eq_iff_iff]
    simp only [beq_iff_eq]
    omega
  · unfold blinkSharedState
    rw [Bool.eq_iff_iff]
    simp only [beq_iff_eq, Bool.not_eq_true', beq_eq_false_iff_ne, ne_eq]
    omega

/-- C5: each edge ISR toggles its flag and records the event time exactly
when `now - lastAccepted >= 200000µs` (unsigned), and otherwise leaves the
state unchanged; consequently, after an accepted event, a second event on
the same trigger less than 200ms later yields only the one toggle, while a
second event 200ms or more later yields a second toggle. -/
theorem claim_C5_edge_debounce :
    (∀ (t : Nat) (s : SysState),
      (usub t s.lastEmergencyInterruptTime ≥ debounceDelayMicro →
        emergencyISR t s =
          { s with emergencyMode := !s.emergencyMode, lastEmergencyInterruptTime := t }) ∧
      (usub t s.lastEmergencyInterruptTime < debounceDelayMicro → emergencyISR t s = s) ∧
      (usub t s.lastResetInterruptTime ≥ debounceDelayMicro →
        resetISR t s =
          { s with systemOffMode := !s.systemOffMode, lastResetInterruptTime := t }) ∧
      (usub t s.lastResetInterruptTime < debounceDelayMicro → resetISR t s = s)) ∧
    (∀ (t1 t2 : Nat) (s : SysState),
      usub t1 s.lastEmergencyInterruptTime ≥ debounceDelayMicro →
      (usub t2 t1 < debounceDelayMicro →
        (emergencyISR t2 (emergencyISR t1 s)).emergencyMode = !s.emergencyMode) ∧
      (usub t2 t1 ≥ debounceDelayMicro →
        (emergencyISR t2 (emergencyISR t1 s)).emergencyMode = s.emergencyMode)) ∧
    (∀ (t1 t2 : Nat) (s : SysState),
      usub t1 s.lastResetInterruptTime ≥ debounceDelayMicro →
      (usub t2 t1 < debounceDelayMicro →
        (resetISR t2 (resetISR t1 s)).systemOffMode = !s.systemOffMode) ∧
      (usub t2 t1 ≥ debounceDelayMicro →
        (resetISR t2 (resetISR t1 s)).systemOffMode = s.systemOffMode)) := by
  refine ⟨?_, ?_, ?_⟩
  · intro t s
    refine ⟨fun h => ?_, fun h => ?_, fun h => ?_, fun h => ?_⟩ <;>
      simp [emergencyISR, resetISR] <;> omega
  · intro t1 t2 s h1
    have e1 : emergencyISR t1 s =
        { s with emergencyMode := !s.emergencyMode, lastEmergencyInterruptTime := t1 } := by
      simp [emergencyISR, h1]
    rw [e1]
    unfold emergencyISR
    dsimp only
    split_ifs with hc
    · exact ⟨fun h2 => absurd hc (by omega), fun _ => by simp⟩
    · exact ⟨fun _ => rfl, fun h2 => absurd h2 hc⟩
  · intro t1 t2 s h1
    have e1 : resetISR t1 s =
        { s with systemOffMode := !s.systemOffMode, lastResetInterruptTime := t1 } := by
      simp [resetISR, h1]
    rw [e1]
    unfold resetISR
    dsimp only
    split_ifs with hc
    · exact ⟨fun h2 => absurd hc (by omega), fun _ => by simp⟩
    · exact ⟨fun _ => rfl, fun h2 => absurd h2 hc⟩

/-- C5 witness: from the boot state (timestamp 0), an accepted emergency
event at 200000µs followed by one at 250000µs (50ms later) leaves the
flag toggled once, and an accepted shutdown event at 200000µs followed by
one at 500000µs (300ms later) leaves the flag toggled twice (back to
false). -/
theorem claim_C5_edge_debounce_witness :
    (emergencyISR 250000 (emergencyISR 200000 (initState 0))).emergencyMode = true ∧
    (resetISR 500000 (resetISR 200000 (initState 0))).systemOffMode = false := by
  constructor
  · exact (claim_C5_edge_debounce.2.1 200000 250000 (initState 0) (by decide)).1 (by decide)
  · exact (claim_C5_edge_debounce.2.2 200000 500000 (initState 0) (by decide)).2 (by decide)

/-- C6 counterexample: at exactly the debounce window (event at 200000µs,
last accepted timestamp 0, so the elapsed time equals and does not
strictly exceed 200000µs), the emergency ISR nevertheless accepts the
toggle — the edge triggers use `>=`, not a strict comparison. -/
theorem claim_C6_counterexample :
    (emergencyISR 200000 (initState 0)).emergencyMode = true ∧
    ¬ (usub 200000 (initState 0).lastEmergencyInterruptTime > debounceDelayMicro) := by
  constructor
  · decide
  · decide

/-- C6 (amended): an edge trigger (emergency or shutdown) toggles its flag
exactly when the unsigned elapsed time since its last accepted toggle is
at least (`>=`, not strictly greater than) its 200ms window; the poll
trigger toggles the blink flag exactly when a high-to-low transition is
observed and the unsigned elapsed time since its last accepted toggle
strictly exceeds its 50ms window. -/
theorem claim_C6_amended_debounce_iff :
    (∀ (t : Nat) (s : SysState),
      ((emergencyISR t s).emergencyMode = !s.emergencyMode ↔
        usub t s.lastEmergencyInterruptTime ≥ debounceDelayMicro)) ∧
    (∀ (t : Nat) (s : SysState),
      ((resetISR t s).systemOffMode = !s.systemOffMode ↔
        usub t s.lastResetInterruptTime ≥ debounceDelayMicro)) ∧
    (∀ (lvl : Bool) (t : Nat) (s : SysState),
      ((pollBlinkingButton lvl t s).blinkingMode = !s.blinkingMode ↔
        (s.lastBlinkingButtonState = HIGH ∧ lvl = LOW ∧
          usub t s.lastBlinkingDebounceTime > blinkingDebounceDelay))) := by
  refine ⟨?_, ?_, ?_⟩
  · intro t s
    unfold emergencyISR
    split_ifs with h <;> simp [h]
  · intro t s
    unfold resetISR
    split_ifs with h <;> simp [h]
  · intro lvl t s
    unfold pollBlinkingButton
    split_ifs with h <;> simp [h]

/-- C10: each trigger's last-accepted timestamp starts at 0, so in the
boot state an emergency or shutdown edge less than 200ms after boot is
discarded without toggling or recording, and a high-to-low poll transition
at 50ms or less after boot leaves the blink flag false. -/
theorem claim_C10_boot_debounce (t u v c : Nat)
    (ht : t < debounceDelayMicro) (hu : u < debounceDelayMicro)
    (hv : v ≤ blinkingDebounceDelay) :
    emergencyISR t (initState c) = initState c ∧
    resetISR u (initState c) = initState c ∧
    (pollBlinkingButton LOW v (initState c)).blinkingMode = false := by
  have hmod : debounceDelayMicro < ulongMod := by decide
  have hmod2 : blinkingDebounceDelay < ulongMod := by decide
  have hts : usub t 0 = t := usub_zero (by omega)
  have hus : usub u 0 = u := usub_zero (by omega)
  have hvs : usub v 0 = v := usub_zero (by omega)
  refine ⟨?_, ?_, ?_⟩
  · unfold emergencyISR
    rw [if_neg]
    show ¬ (usub t 0 ≥ debounceDelayMicro)
    omega
  · unfold resetISR
    rw [if_neg]
    show ¬ (usub u 0 ≥ debounceDelayMicro)
    omega
  · unfold pollBlinkingButton
    rw [if_neg]
    · rfl
    · show ¬ ((initState c).lastBlinkingButtonState = HIGH ∧ LOW = LOW ∧
        usub v (initState c).lastBlinkingDebounceTime > blinkingDebounceDelay)
      simp [initState]
      omega

/-- C10 witness: an emergency edge at 100µs after boot and a shutdown edge
at 199999µs after boot leave the boot state unchanged, and a high-to-low
poll transition at 50ms after boot leaves the blink flag false. -/
theorem claim_C10_boot_debounce_witness :
    emergencyISR 100 (initState 0) = initState 0 ∧
    resetISR 199999 (initState 0) = initState 0 ∧
    (pollBlinkingButton LOW 50 (initState 0)).blinkingMode = false :=
  claim_C10_boot_debounce 100 199999 50 0 (by decide) (by decide) (by decide)

lemma pollAccepts_iff (lvl : Bool) (t : Nat) (s : SysState) :
    pollAccepts lvl t s = true ↔
      (s.lastBlinkingButtonState = HIGH ∧ lvl = LOW ∧
        usub t s.lastBlinkingDebounceTime > blinkingDebounceDelay) := by
  simp [pollAccepts, HIGH, LOW, Bool.and_eq_true, Bool.not_eq_true', and_assoc]

lemma pollBlinkingButton_eq (lvl : Bool) (t : Nat) (s : SysState) :
    pollBlinkingButton lvl t s =
      if pollAccepts lvl t s then
        { s with blinkingMode := !s.blinkingMode, lastBlinkingDebounceTime := t,
                 lastBlinkingButtonState := lvl }
      else { s with lastBlinkingButtonState := lvl } := by
  unfold pollBlinkingButton
  dsimp only
  by_cases h : s.lastBlinkingButtonState = HIGH ∧ lvl = LOW ∧
      usub t s.lastBlinkingDebounceTime > blinkingDebounceDelay
  · rw [if_pos h, if_pos ((pollAccepts_iff lvl t s).mpr h)]
  · rw [if_neg h, if_neg (fun hb => h ((pollAccepts_iff lvl t s).mp hb))]

/-- C7: with the last observed level HIGH, a high→low→high→low bounce
observed across three polls whose low-going samples lie within the 50ms
debounce window accepts at most one blink toggle; and every poll stores
the current raw level into the last-observed level, whether or not the
debounce check accepted the transition. -/
theorem claim_C7_poll_bounce (t1 t2 t3 : Nat) (s : SysState)
    (_hhigh : s.lastBlinkingButtonState = HIGH)
    (hspan : usub t3 t1 ≤ blinkingDebounceDelay) :
    pollToggleCount [(LOW, t1), (HIGH, t2), (LOW, t3)] s ≤ 1 ∧
    (∀ (lvl : Bool) (t : Nat) (s' : SysState),
      (pollBlinkingButton lvl t s').lastBlinkingButtonState = lvl) := by
  refine ⟨?_, fun lvl t s' => ?_⟩
  case refine_2 =>
    rw [pollBlinkingButton_eq]
    split_ifs <;> rfl
  simp only [pollToggleCount, pollBlinkingButton_eq]
  by_cases h1 : pollAccepts LOW t1 s = true
  · simp only [h1, if_true, if_pos]
    have c2 : pollAccepts HIGH t2
        { s with blinkingMode := !s.blinkingMode, lastBlinkingDebounceTime := t1,
                 lastBlinkingButtonState := LOW } = false := by
      simp [pollAccepts, HIGH, LOW]
    simp only [c2, Bool.false_eq_true, if_false]
    have c3 : pollAccepts LOW t3
        { { s with blinkingMode := !s.blinkingMode, lastBlinkingDebounceTime := t1,
                   lastBlinkingButtonState := LOW } with lastBlinkingButtonState := HIGH } =
        false := by
      simp only [pollAccepts]
      simp only [Bool.and_eq_false_iff, decide_eq_false_iff_not]
      right
      omega
    simp only [c3, Bool.false_eq_true, if_false]
    omega
  · rw [Bool.not_eq_true] at h1
    simp only [h1, Bool.false_eq_true, if_false]
    have c2 : pollAccepts HIGH t2 { s with lastBlinkingButtonState := LOW } = false := by
      simp [pollAccepts, HIGH, LOW]
    simp only [c2, Bool.false_eq_true, if_false]
    split_ifs <;> omega

/-- C7 witness: from the boot state (last observed level HIGH, debounce
timestamp 0), a low sample at 100ms, a high sample at 110ms and a low
sample at 120ms (a 20ms bounce) accept at most one blink toggle. -/
theorem claim_C7_poll_bounce_witness :
    pollToggleCount [(LOW, 100), (HIGH, 110), (LOW, 120)] (initState 0) ≤ 1 ∧
    (pollBlinkingButton LOW 100 (initState 0)).lastBlinkingButtonState = LOW := by
  have h := claim_C7_poll_bounce 100 110 120 (initState 0) rfl (by decide)
  exact ⟨h.1, h.2 LOW 100 (initState 0)⟩

end TrafficLight
